import Mathlib

/-!
Verification development for the VPS provisioning broker of the repository
(src/backend/app/services/worker_selector.py, worker_client.py, vps.py and
the data model of src/backend/app/models.py).

The embedding is shallow: database rows become records, the database becomes
an explicit state record threaded through the operations, remote HTTP calls
become oracle functions passed as parameters, and Python exceptions become an
explicit error type carried by the result.  Timestamps are integers (seconds).

The wallet service, the event bus and the ledger ORM row are imported by the
source (app.services.wallet, app.services.event_bus, app.models.LedgerEntry)
but their definitions are not present under src/; those pieces are modelled
from the specification, as marked on the individual definitions below.
-/

namespace VpsBroker

/-- Worker row (models.py, class Worker): id, status in {active, disabled},
max_sessions concurrency cap, created_at used by the selector ordering. -/
structure Worker where
  id : Nat
  status : String
  maxSessions : Option Int
  createdAt : Int
deriving DecidableEq, Repr

/-- Product row (models.py, class VpsProduct): price in coins, default
provisioning action code, active flag. -/
structure Product where
  id : Nat
  priceCoins : Int
  provisionAction : Nat
  isActive : Bool
deriving DecidableEq, Repr

/-- Checklist entry appended by the broker when provisioning succeeds
(vps.py lines 337-345).  The source stores the timestamp as an ISO string;
it is modelled as the integer clock value. -/
structure ChecklistItem where
  key : String
  label : String
  done : Bool
  ts : Option Int
  metaAction : Option Nat
deriving DecidableEq, Repr

/-- Session row (models.py, class VpsSession).  The random session_token and
the rdp_* connection fields are not modelled: no modelled flow reads them
(stop_session only clears them together with the modelled remote-handle
fields). -/
structure SessionRec where
  id : Nat
  userId : Nat
  productId : Nat
  workerId : Nat
  status : String
  checklist : List ChecklistItem
  idempotencyKey : String
  workerRoute : Option String
  logUrl : Option String
  createdAt : Int
  updatedAt : Int
  expiresAt : Option Int
deriving DecidableEq, Repr

/-- Modelled from the spec: the LedgerEntry row (imported from app.models by
vps.py but not defined under src/): type tag, signed amount, resulting
balance, optional session reference, free-form metadata (modelled as one
string). -/
structure LedgerEntry where
  userId : Nat
  amount : Int
  entryType : String
  refId : Option Nat
  resultingBalance : Int
  meta : String
deriving DecidableEq, Repr

/-- The database state: users with their coin balance, the worker registry,
products, the product-to-worker association table (vps_product_workers),
session rows and the append-only ledger. -/
structure St where
  users : List (Nat × Int)
  workers : List Worker
  products : List Product
  productWorkers : List (Nat × Nat)
  sessions : List SessionRec
  ledger : List LedgerEntry
deriving DecidableEq, Repr

/-- Python exceptions that cross the modelled boundaries: fastapi
HTTPException with a status code and detail, TypeError, and any other
exception. -/
inductive PyExc where
  | http (statusCode : Nat) (detail : String)
  | typeError (msg : String)
  | other (msg : String)
deriving DecidableEq, Repr

/-- Result of running a stateful operation: normal return with the new state,
or a raised exception together with the state at the raise point. -/
inductive RunResult (α : Type) where
  | ok (st : St) (val : α)
  | raised (exc : PyExc) (st : St)
deriving DecidableEq, Repr

/-- String rendering of an exception, as used by f-string interpolation of a
caught exception in the source. -/
def pyExcMsg : PyExc → String
  | .http _ d => d
  | .typeError m => m
  | .other m => m

/-- Python str.strip with no arguments: leading and trailing whitespace
removed. -/
def pyStrip (s : String) : String :=
  String.mk (((s.data.dropWhile Char.isWhitespace).reverse.dropWhile
    Char.isWhitespace).reverse)

/-- Digit accumulator for pyInt. -/
def charsToNatAux (acc : Nat) : List Char → Option Nat
  | [] => some acc
  | c :: cs =>
    if c.isDigit then charsToNatAux (acc * 10 + (c.toNat - 48)) cs else none

/-- Python int applied to a string of decimal digits: the parsed value, or
none (a raised ValueError) when the string is empty or holds a non-digit. -/
def pyInt (s : String) : Option Nat :=
  match s.data with
  | [] => none
  | l => charsToNatAux 0 l

/-! ## Wallet (modelled from the spec) -/

/-- Modelled from the spec: WalletService.get_balance (app.services.wallet is
imported by vps.py but absent from src/): returns the coin balance of the
user. -/
def get_balance (st : St) (uid : Nat) : Int :=
  ((st.users.find? (fun p => p.1 == uid)).map Prod.snd).getD 0

/-- Updates the stored balance of an existing user. -/
def set_balance (users : List (Nat × Int)) (uid : Nat) (bal : Int) :
    List (Nat × Int) :=
  users.map (fun p => if p.1 == uid then (p.1, bal) else p)

/-- Modelled from the spec: WalletService.adjust_balance (absent from src/):
atomically applies the signed amount and appends a ledger entry carrying the
type tag, the session reference and the resulting balance; fails when the
resulting balance would go negative. -/
def adjust_balance (st : St) (uid : Nat) (amount : Int) (entryType : String)
    (refId : Option Nat) (meta : String) : Except String St :=
  let newBal := get_balance st uid + amount
  if newBal < 0 then .error "balance would go negative"
  else .ok { st with
    users := set_balance st.users uid newBal,
    ledger := st.ledger ++
      [{ userId := uid, amount := amount, entryType := entryType,
         refId := refId, resultingBalance := newBal, meta := meta }] }

/-! ## Worker selector (worker_selector.py) -/

/-- ACTIVE_STATUSES of worker_selector.py line 11. -/
def ACTIVE_STATUSES : List String := ["pending", "provisioning", "ready"]

/-- Per-worker active session count (WorkerSelector._active_session_counts):
sessions assigned to the worker whose status is pending, provisioning or
ready. -/
def active_session_count (sessions : List SessionRec) (wid : Nat) : Nat :=
  (sessions.filter
    (fun s => s.workerId == wid && ACTIVE_STATUSES.contains s.status)).length

/-- Insertion step for ordering workers by created_at descending (the
order_by of the selector queries). -/
def insertByCreatedDesc (w : Worker) : List Worker → List Worker
  | [] => [w]
  | x :: xs =>
    if x.createdAt ≤ w.createdAt then w :: x :: xs
    else x :: insertByCreatedDesc w xs

/-- Workers ordered by created_at descending. -/
def orderByCreatedDesc (l : List Worker) : List Worker :=
  l.foldr insertByCreatedDesc []

/-- The candidate pool of select_for_product (lines 30-46): active workers
associated with the product; when that set is empty, any active worker in
the registry. -/
def selectPool (st : St) (pid : Nat) : List Worker :=
  let assoc := orderByCreatedDesc (st.workers.filter
    (fun w => w.status == "active" && st.productWorkers.contains (pid, w.id)))
  if assoc.isEmpty then
    orderByCreatedDesc (st.workers.filter (fun w => w.status == "active"))
  else assoc

/-- Capacity test of select_for_product lines 52-60: max_sessions of none or
of a value at most zero means uncapped; otherwise the worker is at capacity
when its active count has reached the cap. -/
def worker_at_cap (st : St) (w : Worker) : Bool :=
  match w.maxSessions with
  | none => false
  | some m =>
      decide (0 < m) && decide (m ≤ (active_session_count st.sessions w.id : Int))

/-- Python min(workers, key=...) over a nonempty list: first element whose
key is minimal (strict-less replacement while folding left). -/
def min_by_load (cnt : Nat → Nat) : List Worker → Option Worker
  | [] => none
  | w :: ws =>
      some (ws.foldl (fun m x => if cnt x.id < cnt m.id then x else m) w)

/-- WorkerSelector.select_for_product (worker_selector.py lines 29-70).
The random.choice tie-break among the least-loaded candidates is modelled by
indexing with an arbitrary seed modulo the list length. -/
def select_for_product (seed : Nat) (st : St) (pid : Nat) : Option Worker :=
  let pool := selectPool st pid
  if pool.isEmpty then none
  else
    let cnt := fun wid => active_session_count st.sessions wid
    let candidates := pool.filterMap
      (fun w => if worker_at_cap st w then none else some (w, cnt w.id))
    match candidates with
    | [] => min_by_load cnt pool
    | c :: cs =>
      let minActive := cs.foldl (fun a p => min a p.2) c.2
      let leastLoaded := ((c :: cs).filter (fun p => p.2 == minActive)).map Prod.fst
      leastLoaded.get? (seed % leastLoaded.length)

/-- Message of the Python TypeError raised when a keyword argument not in the
callee signature is passed. -/
def EXCLUDE_TYPE_ERROR : String :=
  "select_for_product got an unexpected keyword argument: exclude"

/-- Semantics of the broker calls selector.select_for_product(product_id,
exclude=attempted_workers) (vps.py lines 218-219, 239 and 259): the selector
signature (worker_selector.py line 29) has no exclude parameter, so Python
raises TypeError at the call site before any selection logic runs. -/
def select_for_product_with_exclude (seed : Nat) (st : St) (pid : Nat)
    (exclude : List Nat) : Except PyExc (Option Worker) :=
  let _ := seed
  let _ := st
  let _ := pid
  let _ := exclude
  .error (.typeError EXCLUDE_TYPE_ERROR)

/-! ## Worker transport: token_left (worker_client.py lines 265-300) -/

/-- Shape of the JSON body a worker returns from the tokenleft endpoint. -/
inductive WorkerJson where
  | notJson
  | null
  | nonDict
  | dict (fields : List (String × Int))
deriving DecidableEq, Repr

/-- Outcome of the GET performed by token_left. -/
inductive ProbeOutcome where
  | timeout
  | connectError
  | statusError (code : Nat)
  | httpError
  | ok (body : WorkerJson)
deriving DecidableEq, Repr

/-- WorkerClient.token_left: every transport failure and every parse failure
yields -1 instead of raising; a falsy JSON body yields the default 0; a dict
body yields its totalSlots field, defaulting to 0 when missing. -/
def token_left : ProbeOutcome → Int
  | .timeout => -1
  | .connectError => -1
  | .statusError _ => -1
  | .httpError => -1
  | .ok .notJson => -1
  | .ok .null => 0
  | .ok .nonDict => -1
  | .ok (.dict fields) => (fields.lookup "totalSlots").getD 0

/-! ## Broker helpers (vps.py) -/

/-- Fresh primary key for a new session row. -/
def nextSessionId (st : St) : Nat :=
  (st.sessions.map (fun s => s.id)).foldl max 0 + 1

/-- VpsService._find_idempotent (vps.py lines 48-54): first session of the
user carrying the idempotency key. -/
def find_idempotent (st : St) (uid : Nat) (key : String) : Option SessionRec :=
  st.sessions.find? (fun s => s.userId == uid && s.idempotencyKey == key)

/-- VpsService._load_product (vps.py lines 42-46): some only for an existing
active product. -/
def load_product (st : St) (pid : Nat) : Option Product :=
  match st.products.find? (fun p => p.id == pid) with
  | some p => if p.isActive then some p else none
  | none => none

/-- VpsService._initial_session (vps.py lines 70-93): status pending, empty
checklist (CHECKLIST_TEMPLATE is empty), expiry horizon five hours out. -/
def initial_session (uid pid wid : Nat) (key : String) (now : Int) (sid : Nat) :
    SessionRec :=
  { id := sid, userId := uid, productId := pid, workerId := wid,
    status := "pending", checklist := [], idempotencyKey := key,
    workerRoute := none, logUrl := none,
    createdAt := now, updatedAt := now, expiresAt := some (now + 18000) }

/-- Persisting a mutation of the session row with the given primary key. -/
def update_session (st : St) (sid : Nat) (f : SessionRec → SessionRec) : St :=
  { st with sessions := st.sessions.map (fun s => if s.id == sid then f s else s) }

/-- VpsService._refund_session (vps.py lines 95-130): marks the session
failed, clears the remote handles, credits the full product price referencing
the session, in one committed unit; on a wallet failure everything is rolled
back and HTTPException 500 is raised (the caller keeps the prior state). -/
def refund_session (now : Int) (st : St) (uid : Nat) (product : Product)
    (sid : Nat) (reason : String) : Except PyExc St :=
  let st1 := update_session st sid (fun s =>
    { s with status := "failed", updatedAt := now,
             workerRoute := none, logUrl := none })
  match adjust_balance st1 uid product.priceCoins "vps.refund" (some sid) reason with
  | .ok st2 => .ok st2
  | .error _ => .error (.http 500 "Unable to refund VPS purchase")

/-- Session mutation of the provisioning success path (vps.py lines
334-346): record route and log url, set status provisioning, record the
dispatched action in the checklist. -/
def mark_provisioning (st : St) (sid : Nat) (route logUrl : String)
    (action : Nat) (now : Int) : St :=
  update_session st sid (fun s =>
    { s with workerRoute := some route, logUrl := some logUrl,
             status := "provisioning",
             checklist := [{ key := "worker_action", label := toString action,
                             done := true, ts := some now,
                             metaAction := some action }],
             updatedAt := now })

/-- The retryable-detail test of vps.py lines 290-294: the detail string is
present and mentions missing tokens or a busy server.  A non-string detail is
modelled as the empty string (Python then skips the retry branch because the
detail is falsy). -/
def retryable_detail (detail : String) : Bool :=
  !(detail == "") &&
    (decide (List.IsInfix "No available tokens".data detail.data) ||
     decide (List.IsInfix "Server busy".data detail.data))

/-- The provisioning retry loop of purchase_and_create (vps.py lines
230-332).  The probe oracle gives the token_left result per worker (the
client never raises, see token_left above, so the worker-unreachable except
branch of lines 237-255 is dead); the createVm oracle gives the outcome of
WorkerClient.create_vm.  Every continue of the source loop is dominated by a
select_for_product call passing the exclude keyword, which always raises
TypeError, so the recursive cases below are unreachable; the fuel argument
only serves the termination checker. -/
def purchase_loop (probe : Nat → Int)
    (createVm : Nat → Nat → Except PyExc (String × String))
    (seed : Nat) (now : Int) (uid : Nat) (product : Product) (sid : Nat)
    (action : Nat) :
    Nat → Nat → St → Worker → List Nat → RunResult (Nat × Bool)
  | 0, _, st, _, _ => .raised (.other "loop fuel exhausted") st
  | Nat.succ fuel, attempt0, st, worker, attempted =>
    let attempt := attempt0 + 1
    let tokensLeft := probe worker.id
    if tokensLeft ≤ 0 then
      -- vps.py lines 257-284: find another worker with tokens.  The call
      -- passes exclude=, so it raises TypeError, which the outer generic
      -- except handler (lines 321-332) turns into a refund plus 502.
      match select_for_product_with_exclude seed st product.id attempted with
      | .ok (some next) =>
        -- unreachable: reassign the session and retry with the new worker
        let st1 := update_session st sid (fun s =>
          { s with workerId := next.id, updatedAt := now })
        purchase_loop probe createVm seed now uid product sid action
          fuel attempt st1 next (next.id :: attempted)
      | .ok none =>
        -- unreachable: refund and fail with the availability error
        match refund_session now st uid product sid
            "No available tokens on any worker" with
        | .ok st1 => .raised (.http 503 "No workers with available tokens") st1
        | .error e => .raised e st
      | .error exc =>
        match refund_session now st uid product sid "worker_unreachable" with
        | .ok st1 =>
            .raised (.http 502 ("Worker unreachable: " ++ pyExcMsg exc)) st1
        | .error e => .raised e st
    else
      match createVm worker.id action with
      | .ok (route, logUrl) =>
          .ok (mark_provisioning st sid route logUrl action now) (sid, true)
      | .error (.http code detail) =>
        if attempt < 3 && retryable_detail detail then
          -- vps.py lines 295-312: _switch_worker calls the selector with
          -- exclude= and raises TypeError inside this except handler; the
          -- exception escapes purchase_and_create with no refund.
          match select_for_product_with_exclude seed st product.id attempted with
          | .ok (some next) =>
            -- unreachable: re-check tokens on the new worker, then retry
            let st1 := update_session st sid (fun s =>
              { s with workerId := next.id, updatedAt := now })
            if 0 < probe next.id then
              purchase_loop probe createVm seed now uid product sid action
                fuel attempt st1 next (next.id :: attempted)
            else
              match refund_session now st1 uid product sid
                  (if detail == "" then "worker_creation_failed" else detail) with
              | .ok st2 => .raised (.http code detail) st2
              | .error e => .raised e st1
          | .ok none =>
            match refund_session now st uid product sid
                (if detail == "" then "worker_creation_failed" else detail) with
            | .ok st1 => .raised (.http code detail) st1
            | .error e => .raised e st
          | .error exc => .raised exc st
        else
          match refund_session now st uid product sid
              (if detail == "" then "worker_creation_failed" else detail) with
          | .ok st1 => .raised (.http code detail) st1
          | .error e => .raised e st
      | .error exc =>
        match refund_session now st uid product sid "worker_unreachable" with
        | .ok st1 =>
            .raised (.http 502 ("Worker unreachable: " ++ pyExcMsg exc)) st1
        | .error e => .raised e st

/-- VpsService.purchase_and_create (vps.py lines 132-373).  The workerId
argument mirrors the worker_id parameter of the source, which is accepted
and never read; callbackBase mirrors the placeholder callback_base argument.
Event publications have no effect on the modelled state and are omitted. -/
def purchase_and_create (probe : Nat → Int)
    (createVm : Nat → Nat → Except PyExc (String × String))
    (seed fuel : Nat) (now : Int) (st : St) (uid pid : Nat)
    (idempotencyKey : String) (workerAction : Option Nat)
    (workerId : Option Nat) : RunResult (Nat × Bool) :=
  let _ := workerId
  let key := pyStrip idempotencyKey
  if key == "" then .raised (.http 400 "Missing Idempotency-Key") st
  else
    match find_idempotent st uid key with
    | some existing => .ok st (existing.id, false)
    | none =>
      match load_product st pid with
      | none => .raised (.http 404 "Product unavailable") st
      | some product =>
        if get_balance st uid < product.priceCoins then
          .raised (.http 400 "Insufficient coin balance") st
        else
          match select_for_product seed st pid with
          | none => .raised (.http 503 "No worker available for product") st
          | some worker =>
            let sid := nextSessionId st
            let session := initial_session uid product.id worker.id key now sid
            let st1 := { st with sessions := st.sessions ++ [session] }
            match adjust_balance st1 uid (-product.priceCoins) "vps.purchase"
                (some sid) ("product " ++ toString product.id) with
            | .error _ => .raised (.http 500 "Unable to create VPS session") st
            | .ok st2 =>
              let action := match workerAction with
                | some a => if a == 0 then product.provisionAction else a
                | none => product.provisionAction
              purchase_loop probe createVm seed now uid product sid action
                fuel 0 st2 worker [worker.id]

/-! ## Session fetch and lazy expiry (vps.py lines 375-391) -/

/-- Truthiness-and-comparison of the first conjunct of the expiry condition:
a present horizon strictly before now. -/
def horizon_passed (e : Option Int) (now : Int) : Bool :=
  match e with
  | some t => decide (t < now)
  | none => false

/-- VpsService._ensure_not_expired applied to one session row: a session past
its horizon that is not already expired or deleted transitions to expired. -/
def ensure_not_expired (now : Int) (s : SessionRec) : SessionRec :=
  if horizon_passed s.expiresAt now ∧ s.status ≠ "expired" ∧
      s.status ≠ "deleted" then
    { s with status := "expired", updatedAt := now }
  else s

/-- VpsService.get_session_for_user: primary-key lookup scoped to the owning
user, then the lazy expiry check, persisted before the row is returned. -/
def get_session_for_user (st : St) (now : Int) (sid uid : Nat) :
    RunResult SessionRec :=
  match st.sessions.find? (fun s => s.id == sid) with
  | none => .raised (.http 404 "Session not found") st
  | some s =>
    if s.userId ≠ uid then .raised (.http 404 "Session not found") st
    else
      .ok (update_session st sid (fun t => ensure_not_expired now t))
        (ensure_not_expired now s)

/-! ## Stop and the unreachable-session refund (vps.py lines 393-595) -/

/-- State effect of VpsService.stop_session (vps.py lines 393-442): the
session is marked deleted with its expiry collapsed to now and its remote
handles cleared; a remote stop failure is logged and never prevents this
local transition, so the remote outcome does not appear here. -/
def stop_session (st : St) (sid : Nat) (now : Int) : St :=
  update_session st sid (fun s =>
    { s with status := "deleted", expiresAt := some now, updatedAt := now,
             workerRoute := none, logUrl := none })

/-- UNREACHABLE_REFUND_COINS of vps.py line 23. -/
def UNREACHABLE_REFUND_COINS : Int := 15

/-- The ledger query of vps.py lines 571-576: an existing entry of the user
referencing the session with type vps.auto_refund_unreachable. -/
def unreachable_entry (uid sid : Nat) (e : LedgerEntry) : Bool :=
  e.userId == uid && e.refId == some sid &&
    e.entryType == "vps.auto_refund_unreachable"

/-- VpsService._reward_unreachable_session (vps.py lines 565-595): when the
owning user exists and no ledger entry of type vps.auto_refund_unreachable
already references the session, credit the fixed amount; any wallet failure
is swallowed after rollback. -/
def reward_unreachable_session (st : St) (uid sid : Nat) : St :=
  match st.users.find? (fun p => p.1 == uid) with
  | none => st
  | some _ =>
    if st.ledger.any (unreachable_entry uid sid) then st
    else
      match adjust_balance st uid UNREACHABLE_REFUND_COINS
          "vps.auto_refund_unreachable" (some sid) "unreachable_ip_check" with
      | .ok st1 => st1
      | .error _ => st

/-- Take at most n leading characters satisfying p, returning them and the
rest.  Mirrors a greedy bounded character class of the IP regex; no
backtracking is needed because shortening a digit run always leaves another
digit where the pattern then requires a different character. -/
def takeUpTo (n : Nat) (p : Char → Bool) : List Char → List Char × List Char
  | [] => ([], [])
  | c :: cs =>
    if n = 0 then ([], c :: cs)
    else if p c then
      let r := takeUpTo (n - 1) p cs
      (c :: r.1, r.2)
    else ([], c :: cs)

/-- One octet: one to three digits. -/
def parseOctet (cs : List Char) : Option (List Char × List Char) :=
  let r := takeUpTo 3 Char.isDigit cs
  if r.1.isEmpty then none else some r

/-- A dot followed by an octet. -/
def parseDotOctet (cs : List Char) : Option (List Char × List Char) :=
  match cs with
  | '.' :: rest => (parseOctet rest).map (fun r => ('.' :: r.1, r.2))
  | _ => none

/-- The captured group of IP_PATTERN (vps.py lines 24-27) starting at the
given characters: four dot-separated octets with an optional colon-and-port
of one to five digits. -/
def parseIpAt (cs : List Char) : Option String := do
  let r1 ← parseOctet cs
  let r2 ← parseDotOctet r1.2
  let r3 ← parseDotOctet r2.2
  let r4 ← parseDotOctet r3.2
  let port := match r4.2 with
    | ':' :: rest =>
      let pd := takeUpTo 5 Char.isDigit rest
      if pd.1.isEmpty then [] else ':' :: pd.1
    | _ => []
  pure (String.mk (r1.1 ++ r2.1 ++ r3.1 ++ r4.1 ++ port))

/-- Word character for the word-boundary assertion of the regex. -/
def isWordChar (c : Char) : Bool := c.isAlphanum || c == '_'

/-- Left-to-right scan of IP_PATTERN.search: at each position with a word
boundary, try to match IP: case-insensitively, skip whitespace, then match
the address group; on failure resume one character further. -/
def findIpScan : Option Char → List Char → Option String
  | _, [] => none
  | prev, c :: cs =>
    let boundary := match prev with
      | none => true
      | some p => !isWordChar p
    let tryHere :=
      if boundary && (c == 'I' || c == 'i') then
        match cs with
        | p :: ':' :: rest =>
          if p == 'P' || p == 'p' then
            parseIpAt (rest.dropWhile Char.isWhitespace)
          else none
        | _ => none
      else none
    match tryHere with
    | some ip => some ip
    | none => findIpScan (some c) cs

/-- IP_PATTERN.search over the log text, returning the captured target. -/
def findIpTarget (s : String) : Option String := findIpScan none s.data

/-- target.rsplit with a colon separator and one split, as in vps.py line
511: the part before the last colon and the part after it, when a colon is
present. -/
def splitLastColon (s : String) : String × Option String :=
  match s.data.reverse.span (fun c => c ≠ ':') with
  | (_, []) => (s, none)
  | (afterRev, _ :: beforeRev) =>
    (String.mk beforeRev.reverse, some (String.mk afterRev.reverse))

/-- host.strip of the bracket characters (vps.py line 512). -/
def stripBrackets (s : String) : String :=
  let isBr := fun c => c == '[' || c == ']'
  String.mk (((s.data.dropWhile isBr).reverse.dropWhile isBr).reverse)

/-- Port validation of vps.py lines 513-521: an integer between 1 and
65535, else none. -/
def parsePort (p : Option String) : Option Nat :=
  match p with
  | none => none
  | some str =>
    match pyInt str with
    | some n => if 1 ≤ n ∧ n ≤ 65535 then some n else none
    | none => none

/-- Candidate probe URLs of vps.py lines 522-528. -/
def candidate_urls (host : String) (port : Option Nat) : List String :=
  match port with
  | some p =>
    ["http://" ++ host ++ ":" ++ toString p,
     "https://" ++ host ++ ":" ++ toString p]
  | none => ["http://" ++ host, "https://" ++ host]

/-- The probe loop of vps.py lines 532-542 over the candidate URLs.  The
oracle yields none for a raised transport exception and some (status, body)
for a response.  Returns none when some probe succeeded (status below 400
with non-blank body), otherwise the final last-error flag and last status
used to choose the client-facing detail. -/
def probeAll (probeHttp : String → Option (Nat × String)) :
    List String → Bool → Option Nat → Option (Bool × Option Nat)
  | [], lastErr, lastStatus => some (lastErr, lastStatus)
  | u :: us, _lastErr, lastStatus =>
    match probeHttp u with
    | none => probeAll probeHttp us true lastStatus
    | some (code, body) =>
      if code < 400 ∧ pyStrip body ≠ "" then none
      else probeAll probeHttp us false (some code)

/-- VpsService._verify_remote_access (vps.py lines 493-563): skipped for
terminal sessions and for logs with no embedded IP target; otherwise, when
every probe fails, the session is force-stopped, the one-time unreachable
refund is issued and HTTPException 410 is raised. -/
def verify_remote_access (probeHttp : String → Option (Nat × String))
    (now : Int) (st : St) (sid : Nat) (logText : String) : RunResult Unit :=
  match st.sessions.find? (fun s => s.id == sid) with
  | none => .ok st ()
  | some s =>
    if s.status = "deleted" ∨ s.status = "expired" then .ok st ()
    else
      match findIpTarget logText with
      | none => .ok st ()
      | some target =>
        let target := pyStrip target
        if target = "" then .ok st ()
        else
          let hp := splitLastColon target
          let host := stripBrackets hp.1
          let urls := candidate_urls host (parsePort hp.2)
          match probeAll probeHttp urls false none with
          | none => .ok st ()
          | some (lastErr, lastStatus) =>
            let st1 := stop_session st sid now
            let st2 := reward_unreachable_session st1 s.userId sid
            let detail :=
              if lastErr ∧ lastStatus = none then
                "Session terminated because the remote IP is unreachable"
              else
                "Session terminated because the remote IP did not respond with content"
            .raised (.http 410 detail) st2

/-! ## Concrete scenario states used by the claim theorems -/

/-- An active worker with capacity three. -/
def demoWorker : Worker :=
  { id := 1, status := "active", maxSessions := some 3, createdAt := 0 }

/-- An active product priced at sixty coins. -/
def demoProduct : Product :=
  { id := 1, priceCoins := 60, provisionAction := 1, isActive := true }

/-- One user holding one hundred coins, one product served by one active
worker, no sessions, empty ledger. -/
def demoSt : St :=
  { users := [(1, 100)], workers := [demoWorker], products := [demoProduct],
    productWorkers := [(1, 1)], sessions := [], ledger := [] }

/-- Final state of the run used for claim C4 and for claim C5: the debit of
the purchase followed by the compensating refund, the session left in status
failed. -/
def refundedFailSt : St :=
  { users := [(1, 100)], workers := [demoWorker], products := [demoProduct],
    productWorkers := [(1, 1)],
    sessions := [{ id := 1, userId := 1, productId := 1, workerId := 1,
                   status := "failed", checklist := [],
                   idempotencyKey := "key-1", workerRoute := none,
                   logUrl := none, createdAt := 0, updatedAt := 0,
                   expiresAt := some 18000 }],
    ledger := [{ userId := 1, amount := -60, entryType := "vps.purchase",
                 refId := some 1, resultingBalance := 40, meta := "product 1" },
               { userId := 1, amount := 60, entryType := "vps.refund",
                 refId := some 1, resultingBalance := 100,
                 meta := "worker_unreachable" }] }

/-- Final state of the run used for claim C1: the session still pending and
debited, with no compensating credit anywhere in the ledger. -/
def debitedPendingSt : St :=
  { users := [(1, 40)], workers := [demoWorker], products := [demoProduct],
    productWorkers := [(1, 1)],
    sessions := [{ id := 1, userId := 1, productId := 1, workerId := 1,
                   status := "pending", checklist := [],
                   idempotencyKey := "key-1", workerRoute := none,
                   logUrl := none, createdAt := 0, updatedAt := 0,
                   expiresAt := some 18000 }],
    ledger := [{ userId := 1, amount := -60, entryType := "vps.purchase",
                 refId := some 1, resultingBalance := 40,
                 meta := "product 1" }] }

/-! ## General-purpose list lemmas used by the claim proofs -/

theorem find?_append_of_none {α : Type} (p : α → Bool) {l1 : List α}
    (l2 : List α) (h : l1.find? p = none) :
    (l1 ++ l2).find? p = l2.find? p := by
  induction l1 with
  | nil => rfl
  | cons a l ih =>
    rw [List.find?_cons] at h
    rw [List.cons_append, List.find?_cons]
    cases hpa : p a with
    | true => simp [hpa] at h
    | false =>
      simp only [hpa] at h ⊢
      exact ih h

theorem find?_map_pres {α : Type} (f : α → α) (p : α → Bool)
    (hf : ∀ a, p (f a) = p a) :
    ∀ l : List α, (l.map f).find? p = (l.find? p).map f := by
  intro l
  induction l with
  | nil => rfl
  | cons a l ih =>
    rw [List.map_cons, List.find?_cons, List.find?_cons, hf a]
    cases hpa : p a with
    | true => rfl
    | false => exact ih

theorem map_eq_self_of {α : Type} (f : α → α) :
    ∀ l : List α, (∀ a ∈ l, f a = a) → l.map f = l := by
  intro l
  induction l with
  | nil => intro _; rfl
  | cons a l ih =>
    intro h
    rw [List.map_cons, h a (List.mem_cons_self a l),
      ih (fun b hb => h b (List.mem_cons_of_mem a hb))]

theorem get?_some_of_lt {α : Type} :
    ∀ (l : List α) (n : Nat), n < l.length → ∃ a, l.get? n = some a := by
  intro l
  induction l with
  | nil => intro n h; simp at h
  | cons a l ih =>
    intro n h
    cases n with
    | zero => exact ⟨a, rfl⟩
    | succ m => exact ih m (Nat.lt_of_succ_lt_succ h)

theorem mem_of_get?_some {α : Type} :
    ∀ (l : List α) (n : Nat) (a : α), l.get? n = some a → a ∈ l := by
  intro l
  induction l with
  | nil => intro n a h; cases h
  | cons b l ih =>
    intro n a h
    cases n with
    | zero =>
      cases h
      exact List.mem_cons_self b l
    | succ m => exact List.mem_cons_of_mem b (ih m a h)

/-! ## Claim theorems -/

/-- Claim C1 (code bug): the code does not keep the promised invariant.  In
the run below the wallet debit commits, create_vm fails with the retryable
detail No available tokens on the first attempt, and the failover handler
calls the selector with the exclude keyword, raising TypeError from inside
the exception handler; the error escapes purchase_and_create with the
session still pending and the sixty-coin debit uncompensated: the ledger
holds exactly one debit and no credit referencing the session. -/
theorem C1_retryable_failure_escapes_without_refund :
    purchase_and_create (fun _ => 5)
        (fun _ _ => .error (.http 503 "No available tokens"))
        0 9 0 demoSt 1 1 "key-1" none none =
      .raised (.typeError EXCLUDE_TYPE_ERROR) debitedPendingSt
    ∧ debitedPendingSt.ledger.countP
        (fun e => e.entryType == "vps.purchase" && e.refId == some 1) = 1
    ∧ debitedPendingSt.ledger.countP
        (fun e => e.entryType == "vps.refund" && e.refId == some 1) = 0
    ∧ debitedPendingSt.sessions.map (fun s => s.status) = ["pending"] := by
  refine ⟨rfl, rfl, rfl, rfl⟩

/-- Claim C3 (code bug): select_for_product does not accept an exclude set;
the signature of worker_selector.py line 29 has only product_id, so every
call passing the exclude keyword (as the failover paths of the broker do)
raises TypeError instead of returning a worker outside the set. -/
theorem C3_exclude_keyword_raises_type_error (seed : Nat) (st : St)
    (pid : Nat) (exclude : List Nat) :
    select_for_product_with_exclude seed st pid exclude =
      .error (.typeError EXCLUDE_TYPE_ERROR) := rfl

/-- Claim C4 (code bug): when the assigned worker reports zero capacity the
broker does not fail over and does not raise the availability error; the
exclude TypeError is caught by the generic handler, which does refund the
debit (the wallet part of the claim holds: the final balance equals the
pre-purchase balance and the ledger holds a matched debit and credit) but
then raises 502 Worker unreachable instead of reassigning another worker or
returning 503 No workers with available tokens.  The quantifier over the
createVm oracle shows no creation attempt is ever made. -/
theorem C4_zero_capacity_refunds_but_no_failover :
    (∀ createVm, purchase_and_create (fun _ => 0) createVm
        0 9 0 demoSt 1 1 "key-1" none none =
      .raised (.http 502 ("Worker unreachable: " ++ EXCLUDE_TYPE_ERROR))
        refundedFailSt)
    ∧ get_balance refundedFailSt 1 = get_balance demoSt 1
    ∧ refundedFailSt.sessions.map (fun s => s.status) = ["failed"]
    ∧ refundedFailSt.ledger.map (fun e => (e.entryType, e.amount, e.refId)) =
        [("vps.purchase", -60, some 1), ("vps.refund", 60, some 1)] := by
  refine ⟨fun createVm => rfl, rfl, rfl, rfl⟩

/-- Claim C5 (code bug): token_left indeed returns -1 instead of raising on
every network or parse failure (first conjunct), but the broker caller does
not treat -1 as try anyway: with a probe result of -1 on the assigned worker
purchase_and_create never reaches create_vm (the outcome is the same for
every createVm oracle) and instead takes the zero-capacity branch, ending in
the refund plus 502 produced by the exclude TypeError. -/
theorem C5_unknown_capacity_blocks_instead_of_proceeding :
    (token_left .timeout = -1
     ∧ token_left .connectError = -1
     ∧ (∀ code, token_left (.statusError code) = -1)
     ∧ token_left .httpError = -1
     ∧ token_left (.ok .notJson) = -1
     ∧ token_left (.ok .nonDict) = -1)
    ∧ (∀ createVm, purchase_and_create (fun _ => -1) createVm
        0 9 0 demoSt 1 1 "key-1" none none =
      .raised (.http 502 ("Worker unreachable: " ++ EXCLUDE_TYPE_ERROR))
        refundedFailSt) := by
  exact ⟨⟨rfl, rfl, fun _ => rfl, rfl, rfl, rfl⟩, fun createVm => rfl⟩

/-- Claim C10: the outcome of purchase_and_create does not depend on its
workerId argument; the parameter is accepted (mirroring the worker_id
keyword of the service and of the HTTP endpoint) and never read, so any two
calls differing only there return identical sessions, states and errors. -/
theorem C10_worker_id_argument_never_read (probe : Nat → Int)
    (createVm : Nat → Nat → Except PyExc (String × String))
    (seed fuel : Nat) (now : Int) (st : St) (uid pid : Nat) (key : String)
    (workerAction : Option Nat) (w1 w2 : Option Nat) :
    purchase_and_create probe createVm seed fuel now st uid pid key
        workerAction w1 =
      purchase_and_create probe createVm seed fuel now st uid pid key
        workerAction w2 := rfl

/-- Claim C7: with the wallet balance strictly below the product price the
purchase is rejected with the client error and the returned state is the
input state itself: no session row, no ledger entry, no balance change. -/
theorem C7_insufficient_balance_no_side_effects (probe : Nat → Int)
    (createVm : Nat → Nat → Except PyExc (String × String))
    (seed fuel : Nat) (now : Int) (st : St) (uid pid : Nat) (key : String)
    (workerAction workerId : Option Nat) (product : Product)
    (hkey : pyStrip key ≠ "")
    (hidem : find_idempotent st uid (pyStrip key) = none)
    (hprod : load_product st pid = some product)
    (hbal : get_balance st uid < product.priceCoins) :
    purchase_and_create probe createVm seed fuel now st uid pid key
        workerAction workerId =
      .raised (.http 400 "Insufficient coin balance") st := by
  have hkeyb : (pyStrip key == "") = false := by
    simpa using hkey
  unfold purchase_and_create
  simp only [hkeyb, Bool.false_eq_true, if_false, hidem, hprod, if_pos hbal]

/-- Witness for claim C7: a user holding fifty coins cannot buy the
sixty-coin product, and the state is returned unchanged. -/
theorem C7_witness :
    purchase_and_create (fun _ => 5) (fun _ _ => .ok ("r", "u")) 0 9 0
        { demoSt with users := [(1, 50)] } 1 1 "key-1" none none =
      .raised (.http 400 "Insufficient coin balance")
        { demoSt with users := [(1, 50)] } :=
  C7_insufficient_balance_no_side_effects (fun _ => 5)
    (fun _ _ => .ok ("r", "u")) 0 9 0 { demoSt with users := [(1, 50)] }
    1 1 "key-1" none none demoProduct (by decide) (by decide) (by decide)
    (by decide)

/-- A session already in a terminal status is left unchanged by the lazy
expiry check. -/
theorem pred_of_find?_some {α : Type} (p : α → Bool) :
    ∀ {l : List α} {a : α}, l.find? p = some a → p a = true := by
  intro l
  induction l with
  | nil => intro a h; cases h
  | cons b l ih =>
    intro a h
    rw [List.find?_cons] at h
    cases hb : p b with
    | true =>
      rw [hb] at h
      simp only [Option.some.injEq] at h
      rw [← h]
      exact hb
    | false =>
      rw [hb] at h
      exact ih h

theorem ensure_not_expired_terminal (now : Int) (s : SessionRec)
    (h : s.status = "expired" ∨ s.status = "deleted") :
    ensure_not_expired now s = s := by
  unfold ensure_not_expired
  rw [if_neg]
  intro hc
  rcases h with h | h
  · exact hc.2.1 h
  · exact hc.2.2 h

/-- The lazy expiry check never changes the primary key of the row. -/
theorem ensure_not_expired_id (now : Int) (u : SessionRec) :
    (ensure_not_expired now u).id = u.id := by
  unfold ensure_not_expired
  split
  · rfl
  · rfl

/-- Claim C9: fetching a session whose horizon has passed observes and
persists status expired (the stored row is updated before the fetch
returns), while a session already terminal is returned unchanged, with the
state untouched. -/
theorem C9_lazy_expiry_on_fetch (st : St) (now : Int) (sid uid : Nat)
    (s : SessionRec)
    (hfind : st.sessions.find? (fun t => t.id == sid) = some s)
    (huser : s.userId = uid)
    (huniq : ∀ t ∈ st.sessions, t.id = sid → t = s) :
    (∀ e, s.expiresAt = some e → e < now → s.status ≠ "expired" →
      s.status ≠ "deleted" →
      get_session_for_user st now sid uid =
        .ok (update_session st sid (fun t => ensure_not_expired now t))
          { s with status := "expired", updatedAt := now }
      ∧ (update_session st sid
            (fun t => ensure_not_expired now t)).sessions.find?
          (fun t => t.id == sid) =
          some { s with status := "expired", updatedAt := now })
    ∧ ((s.status = "expired" ∨ s.status = "deleted") →
        get_session_for_user st now sid uid = .ok st s) := by
  have hsid : (s.id == sid) = true :=
    pred_of_find?_some (fun (t : SessionRec) => t.id == sid) hfind
  have hf :
      (st.sessions.map (fun t => if t.id == sid then ensure_not_expired now t
        else t)).find? (fun t => t.id == sid) =
      (st.sessions.find? (fun t => t.id == sid)).map
        (fun t => if t.id == sid then ensure_not_expired now t else t) := by
    apply find?_map_pres
    intro t
    cases ht : (t.id == sid) with
    | false => simp [ht]
    | true => simp [ht, ensure_not_expired_id now t]
  constructor
  · intro e he hlt hne hnd
    have hhor : horizon_passed s.expiresAt now = true := by
      rw [he]
      exact decide_eq_true hlt
    have hens : ensure_not_expired now s =
        { s with status := "expired", updatedAt := now } := by
      unfold ensure_not_expired
      exact if_pos ⟨hhor, hne, hnd⟩
    constructor
    · unfold get_session_for_user
      simp only [hfind]
      rw [if_neg (fun hcon => hcon huser), hens]
    · unfold update_session
      simp only
      rw [hf, hfind]
      simp only [Option.map_some']
      rw [if_pos hsid, hens]
  · intro hterm
    have hens : ensure_not_expired now s = s :=
      ensure_not_expired_terminal now s hterm
    have hmap : st.sessions.map (fun t => if t.id == sid then
        ensure_not_expired now t else t) = st.sessions := by
      apply map_eq_self_of
      intro t ht
      cases htid : (t.id == sid) with
      | false => simp [htid]
      | true =>
        have heq : t = s := huniq t ht (by simpa using htid)
        subst heq
        simp [htid, hens]
    unfold get_session_for_user
    simp only [hfind]
    rw [if_neg (fun hcon => hcon huser), hens]
    unfold update_session
    rw [hmap]

/-- Session used by the claim C9 witness: status ready with a horizon at
time ten. -/
def c9Session : SessionRec :=
  { id := 1, userId := 1, productId := 1, workerId := 1, status := "ready",
    checklist := [], idempotencyKey := "key-9", workerRoute := none,
    logUrl := none, createdAt := 0, updatedAt := 0, expiresAt := some 10 }

/-- State used by the claim C9 witness. -/
def c9St : St := { demoSt with sessions := [c9Session] }

/-- Witness for claim C9: at time one hundred the ready session with horizon
ten is fetched as expired and the stored row now carries status expired. -/
theorem C9_witness :
    get_session_for_user c9St 100 1 1 =
      .ok (update_session c9St 1 (fun t => ensure_not_expired 100 t))
        { c9Session with status := "expired", updatedAt := 100 }
    ∧ (update_session c9St 1
          (fun t => ensure_not_expired 100 t)).sessions.find?
        (fun t => t.id == 1) =
        some { c9Session with status := "expired", updatedAt := 100 } :=
  (C9_lazy_expiry_on_fetch c9St 100 1 1 c9Session (by decide) (by decide)
    (by decide)).1 10 (by decide) (by decide) (by decide) (by decide)

/-- Balance updates keep the user lookup aligned: finding a user after
set_balance is the mapped result of finding the user before it. -/
theorem find_user_set_balance (users : List (Nat × Int)) (uid : Nat)
    (bal : Int) :
    (set_balance users uid bal).find? (fun p => p.1 == uid) =
      (users.find? (fun p => p.1 == uid)).map
        (fun p => if p.1 == uid then (p.1, bal) else p) := by
  unfold set_balance
  apply find?_map_pres
  intro p
  cases hp : (p.1 == uid) with
  | false => simp [hp]
  | true => simp [hp]

/-- When the marker ledger entry already exists for the session, the
unreachable refund is a no-op. -/
theorem reward_of_entry_exists (st : St) (uid sid : Nat) (u : Nat × Int)
    (hu : st.users.find? (fun p => p.1 == uid) = some u)
    (hex : st.ledger.any (unreachable_entry uid sid) = true) :
    reward_unreachable_session st uid sid = st := by
  unfold reward_unreachable_session
  simp only [hu, hex, if_true]

/-- Running the unreachable refund twice for one session is the same as
running it once: the second run always finds either the ledger marker
written by the first, or the unchanged state of a first run that did not
credit. -/
theorem reward_unreachable_idem (st : St) (uid sid : Nat) :
    reward_unreachable_session (reward_unreachable_session st uid sid) uid sid
      = reward_unreachable_session st uid sid := by
  cases hu : st.users.find? (fun p => p.1 == uid) with
  | none =>
    have h1 : reward_unreachable_session st uid sid = st := by
      unfold reward_unreachable_session
      simp only [hu]
    rw [h1, h1]
  | some u =>
    cases hex : st.ledger.any (unreachable_entry uid sid) with
    | true =>
      have h1 : reward_unreachable_session st uid sid = st :=
        reward_of_entry_exists st uid sid u hu hex
      rw [h1, h1]
    | false =>
      have hrw : reward_unreachable_session st uid sid =
          match adjust_balance st uid UNREACHABLE_REFUND_COINS
            "vps.auto_refund_unreachable" (some sid) "unreachable_ip_check" with
          | .ok st1 => st1
          | .error _ => st := by
        unfold reward_unreachable_session
        simp only [hu, hex, Bool.false_eq_true, if_false]
      cases hadj : adjust_balance st uid UNREACHABLE_REFUND_COINS
          "vps.auto_refund_unreachable" (some sid) "unreachable_ip_check" with
      | error msg =>
        have h1 : reward_unreachable_session st uid sid = st := by
          rw [hrw, hadj]
        rw [h1, h1]
      | ok st1 =>
        have h1 : reward_unreachable_session st uid sid = st1 := by
          rw [hrw, hadj]
        rw [h1]
        have hadj2 := hadj
        simp only [adjust_balance] at hadj2
        split at hadj2
        · cases hadj2
        · injection hadj2 with h2
          subst h2
          refine reward_of_entry_exists _ uid sid
            (if u.1 == uid then (u.1, get_balance st uid +
              UNREACHABLE_REFUND_COINS) else u) ?_ ?_
          · show (set_balance st.users uid _).find? (fun p => p.1 == uid) =
              some _
            rw [find_user_set_balance, hu]
            rfl
          · show (st.ledger ++ [_]).any (unreachable_entry uid sid) = true
            rw [List.any_append]
            simp [unreachable_entry]

/-- Session used by the claim C8 scenario: a provisioning session holding a
remote route. -/
def c8Session : SessionRec :=
  { id := 1, userId := 1, productId := 1, workerId := 1,
    status := "provisioning", checklist := [], idempotencyKey := "key-1",
    workerRoute := some "abc", logUrl := some "http://w/log/abc",
    createdAt := 0, updatedAt := 0, expiresAt := some 18000 }

/-- State used by the claim C8 scenario: the user was debited sixty coins
for the provisioning session. -/
def c8St : St :=
  { users := [(1, 40)], workers := [demoWorker], products := [demoProduct],
    productWorkers := [(1, 1)], sessions := [c8Session],
    ledger := [{ userId := 1, amount := -60, entryType := "vps.purchase",
                 refId := some 1, resultingBalance := 40,
                 meta := "product 1" }] }

/-- State after the first unreachable trigger of the claim C8 scenario: the
session force-stopped and one fixed credit of fifteen coins recorded. -/
def c8Final : St :=
  { users := [(1, 55)], workers := [demoWorker], products := [demoProduct],
    productWorkers := [(1, 1)],
    sessions := [{ id := 1, userId := 1, productId := 1, workerId := 1,
                   status := "deleted", checklist := [],
                   idempotencyKey := "key-1", workerRoute := none,
                   logUrl := none, createdAt := 0, updatedAt := 50,
                   expiresAt := some 50 }],
    ledger := [{ userId := 1, amount := -60, entryType := "vps.purchase",
                 refId := some 1, resultingBalance := 40,
                 meta := "product 1" },
               { userId := 1, amount := 15,
                 entryType := "vps.auto_refund_unreachable", refId := some 1,
                 resultingBalance := 55, meta := "unreachable_ip_check" }] }

/-- Claim C8: the unreachable refund credits at most once per session (the
refund operation is idempotent for every state, checked against existing
ledger entries before crediting), and the first trigger force-stops the
session to status deleted, records exactly one credit of the fixed
fifteen-coin amount, and surfaces the gone error; a repeated fetch of the
now-terminal session makes no further change. -/
theorem C8_unreachable_refund_credits_once :
    (∀ st uid sid,
      reward_unreachable_session (reward_unreachable_session st uid sid)
          uid sid =
        reward_unreachable_session st uid sid)
    ∧ verify_remote_access (fun _ => none) 50 c8St 1
        "setup done IP: 10.0.0.5:8080 booting" =
      .raised
        (.http 410 "Session terminated because the remote IP is unreachable")
        c8Final
    ∧ c8Final.sessions.map (fun s => s.status) = ["deleted"]
    ∧ c8Final.ledger.countP
        (fun e => e.entryType == "vps.auto_refund_unreachable" &&
          e.refId == some 1) = 1
    ∧ get_balance c8Final 1 = get_balance c8St 1 + UNREACHABLE_REFUND_COINS
    ∧ verify_remote_access (fun _ => none) 60 c8Final 1
        "setup done IP: 10.0.0.5:8080 booting" = .ok c8Final () :=
  ⟨fun st uid sid => reward_unreachable_idem st uid sid,
   rfl, rfl, rfl, rfl, rfl⟩

/-- Python min with a key function, as folded from the left: the result is
drawn from the inputs and its key is minimal. -/
theorem foldl_minload_spec (cnt : Nat → Nat) :
    ∀ (l : List Worker) (acc : Worker),
      (l.foldl (fun m x => if cnt x.id < cnt m.id then x else m) acc) ∈ acc :: l
      ∧ cnt (l.foldl (fun m x => if cnt x.id < cnt m.id then x else m) acc).id
          ≤ cnt acc.id
      ∧ ∀ x ∈ l,
          cnt (l.foldl (fun m x => if cnt x.id < cnt m.id then x else m) acc).id
            ≤ cnt x.id := by
  intro l
  induction l with
  | nil =>
    intro acc
    refine ⟨List.mem_cons_self acc [], Nat.le_refl _, ?_⟩
    intro x hx
    cases hx
  | cons a l ih =>
    intro acc
    rw [List.foldl_cons]
    by_cases hc : cnt a.id < cnt acc.id
    · rw [if_pos hc]
      rcases ih a with ⟨hmem, hle, hall⟩
      refine ⟨?_, Nat.le_trans hle (Nat.le_of_lt hc), ?_⟩
      · rcases List.mem_cons.mp hmem with h | h
        · exact List.mem_cons.mpr (Or.inr (List.mem_cons.mpr (Or.inl h)))
        · exact List.mem_cons.mpr (Or.inr (List.mem_cons.mpr (Or.inr h)))
      · intro x hx
        rcases List.mem_cons.mp hx with h | h
        · subst h; exact hle
        · exact hall x h
    · rw [if_neg hc]
      rcases ih acc with ⟨hmem, hle, hall⟩
      refine ⟨?_, hle, ?_⟩
      · rcases List.mem_cons.mp hmem with h | h
        · exact List.mem_cons.mpr (Or.inl h)
        · exact List.mem_cons.mpr (Or.inr (List.mem_cons.mpr (Or.inr h)))
      · intro x hx
        rcases List.mem_cons.mp hx with h | h
        · subst h; exact Nat.le_trans hle (Nat.le_of_not_lt hc)
        · exact hall x h

/-- min_by_load over a nonempty list returns a member with minimal load. -/
theorem min_by_load_spec (cnt : Nat → Nat) (l : List Worker) (hne : l ≠ []) :
    ∃ m, min_by_load cnt l = some m ∧ m ∈ l
      ∧ ∀ x ∈ l, cnt m.id ≤ cnt x.id := by
  cases l with
  | nil => exact absurd rfl hne
  | cons w ws =>
    rcases foldl_minload_spec cnt ws w with ⟨hmem, hle, hall⟩
    refine ⟨_, rfl, hmem, ?_⟩
    intro x hx
    rcases List.mem_cons.mp hx with h | h
    · subst h; exact hle
    · exact hall x h

/-- Left fold of min over the second components is a lower bound. -/
theorem foldl_min_snd_le (l : List (Worker × Nat)) :
    ∀ (a0 : Nat), (l.foldl (fun a p => min a p.2) a0) ≤ a0
      ∧ ∀ p ∈ l, (l.foldl (fun a p => min a p.2) a0) ≤ p.2 := by
  induction l with
  | nil =>
    intro a0
    refine ⟨Nat.le_refl _, ?_⟩
    intro p hp
    cases hp
  | cons q l ih =>
    intro a0
    rw [List.foldl_cons]
    rcases ih (min a0 q.2) with ⟨hle, hall⟩
    refine ⟨Nat.le_trans hle (Nat.min_le_left _ _), ?_⟩
    intro p hp
    rcases List.mem_cons.mp hp with h | h
    · subst h; exact Nat.le_trans hle (Nat.min_le_right _ _)
    · exact hall p h

/-- Left fold of min over the second components is attained by the seed or
by some element. -/
theorem foldl_min_snd_attained (l : List (Worker × Nat)) :
    ∀ (a0 : Nat), (l.foldl (fun a p => min a p.2) a0) = a0
      ∨ ∃ p ∈ l, (l.foldl (fun a p => min a p.2) a0) = p.2 := by
  induction l with
  | nil => intro a0; exact Or.inl rfl
  | cons q l ih =>
    intro a0
    rw [List.foldl_cons]
    rcases ih (min a0 q.2) with h | ⟨p, hp, hv⟩
    · rcases Nat.le_total a0 q.2 with hmin | hmin
      · exact Or.inl (by rw [h]; exact Nat.min_eq_left hmin)
      · refine Or.inr ⟨q, List.mem_cons_self q l, ?_⟩
        rw [h]
        exact Nat.min_eq_right hmin
    · exact Or.inr ⟨p, List.mem_cons_of_mem q hp, hv⟩

/-- Membership in the under-cap candidate list of the selector. -/
theorem mem_candidates_iff (st : St) (pool : List Worker) (w : Worker)
    (a : Nat) :
    (w, a) ∈ pool.filterMap (fun u => if worker_at_cap st u then none
        else some (u, active_session_count st.sessions u.id))
      ↔ w ∈ pool ∧ worker_at_cap st w = false
        ∧ a = active_session_count st.sessions w.id := by
  rw [List.mem_filterMap]
  constructor
  · rintro ⟨u, hu, hf⟩
    by_cases hc : worker_at_cap st u = true
    · rw [if_pos hc] at hf
      cases hf
    · rw [if_neg hc] at hf
      injection hf with hf2
      rw [Prod.mk.injEq] at hf2
      rcases hf2 with ⟨h1, h2⟩
      subst h1
      exact ⟨hu, Bool.not_eq_true _ ▸ (by simpa using hc), h2.symm⟩
  · rintro ⟨hw, hcap, ha⟩
    refine ⟨w, hw, ?_⟩
    rw [if_neg (by simp [hcap]), ha]

/-- The random.choice step of the selector: indexing the least-loaded slice
always yields some element, and that element attains the minimal active
count of the candidate pairs. -/
theorem least_loaded_choice_spec (seed : Nat) (c : Worker × Nat)
    (cs : List (Worker × Nat)) :
    ∃ w, (((c :: cs).filter
          (fun p => p.2 == cs.foldl (fun a p => min a p.2) c.2)).map
          Prod.fst).get?
        (seed % (((c :: cs).filter
          (fun p => p.2 == cs.foldl (fun a p => min a p.2) c.2)).map
          Prod.fst).length) = some w
      ∧ ∃ a, (w, a) ∈ c :: cs ∧ a = cs.foldl (fun a p => min a p.2) c.2
        ∧ ∀ p ∈ c :: cs, a ≤ p.2 := by
  rcases foldl_min_snd_le cs c.2 with ⟨hle0, hleall⟩
  have hminall : ∀ p ∈ c :: cs, cs.foldl (fun a p => min a p.2) c.2 ≤ p.2 := by
    intro p hp
    rcases List.mem_cons.mp hp with h | h
    · subst h; exact hle0
    · exact hleall p h
  have hatt : ∃ q ∈ c :: cs, q.2 = cs.foldl (fun a p => min a p.2) c.2 := by
    rcases foldl_min_snd_attained cs c.2 with h | ⟨p, hp, hv⟩
    · exact ⟨c, List.mem_cons_self c cs, h.symm⟩
    · exact ⟨p, List.mem_cons_of_mem c hp, hv.symm⟩
  rcases hatt with ⟨q, hq, hqv⟩
  have hqf : q ∈ (c :: cs).filter
      (fun p => p.2 == cs.foldl (fun a p => min a p.2) c.2) := by
    refine List.mem_filter.mpr ⟨hq, ?_⟩
    rw [hqv]
    simp
  have hne : ((c :: cs).filter
      (fun p => p.2 == cs.foldl (fun a p => min a p.2) c.2)).map Prod.fst
      ≠ [] := by
    intro hnil
    have hmem := List.mem_map_of_mem Prod.fst hqf
    rw [hnil] at hmem
    cases hmem
  have hlen : 0 < (((c :: cs).filter
      (fun p => p.2 == cs.foldl (fun a p => min a p.2) c.2)).map
      Prod.fst).length := List.length_pos.mpr hne
  rcases get?_some_of_lt _ _ (Nat.mod_lt seed hlen) with ⟨w, hw⟩
  refine ⟨w, hw, ?_⟩
  have hwmem := mem_of_get?_some _ _ _ hw
  rcases List.mem_map.mp hwmem with ⟨pr, hprf, hpr1⟩
  rcases List.mem_filter.mp hprf with ⟨hprmem, hprval⟩
  have hpr2 : pr.2 = cs.foldl (fun a p => min a p.2) c.2 := eq_of_beq hprval
  refine ⟨pr.2, ?_, hpr2, ?_⟩
  · rw [← hpr1]
    simpa using hprmem
  · intro p hp
    rw [hpr2]
    exact hminall p hp

/-- Claim C6: whenever the candidate pool is nonempty the selector returns a
worker of the pool; it never returns an at-capacity worker while some pool
member has headroom, and the returned worker then has the minimal active
count among the under-cap members; when every pool member is at capacity it
still returns a least-loaded worker rather than none. -/
theorem C6_selector_respects_caps (seed : Nat) (st : St) (pid : Nat)
    (hpool : selectPool st pid ≠ []) :
    ∃ w, select_for_product seed st pid = some w
      ∧ w ∈ selectPool st pid
      ∧ ((∃ u ∈ selectPool st pid, worker_at_cap st u = false) →
          worker_at_cap st w = false
          ∧ ∀ u ∈ selectPool st pid, worker_at_cap st u = false →
              active_session_count st.sessions w.id ≤
                active_session_count st.sessions u.id)
      ∧ ((∀ u ∈ selectPool st pid, worker_at_cap st u = true) →
          ∀ u ∈ selectPool st pid,
            active_session_count st.sessions w.id ≤
              active_session_count st.sessions u.id) := by
  have hempty : (selectPool st pid).isEmpty = false := by
    cases hl : selectPool st pid with
    | nil => exact absurd hl hpool
    | cons a as => rfl
  unfold select_for_product
  simp only [hempty, Bool.false_eq_true, if_false]
  cases hcand : (selectPool st pid).filterMap
      (fun u => if worker_at_cap st u then none
        else some (u, active_session_count st.sessions u.id)) with
  | nil =>
    simp only [hcand]
    rcases min_by_load_spec (fun wid => active_session_count st.sessions wid)
      (selectPool st pid) hpool with ⟨m, hm, hmem, hall⟩
    refine ⟨m, hm, hmem, ?_, ?_⟩
    · rintro ⟨u, hu, hcap⟩
      have humem : (u, active_session_count st.sessions u.id) ∈
          (selectPool st pid).filterMap
            (fun u => if worker_at_cap st u then none
              else some (u, active_session_count st.sessions u.id)) :=
        (mem_candidates_iff st (selectPool st pid) u _).mpr ⟨hu, hcap, rfl⟩
      rw [hcand] at humem
      cases humem
    · intro _ u hu
      exact hall u hu
  | cons c cs =>
    simp only [hcand]
    rcases least_loaded_choice_spec seed c cs with ⟨w, hget, a, hpair, hamin, hallmin⟩
    have hwc : (w, a) ∈ (selectPool st pid).filterMap
        (fun u => if worker_at_cap st u then none
          else some (u, active_session_count st.sessions u.id)) := by
      rw [hcand]
      exact hpair
    rcases (mem_candidates_iff st (selectPool st pid) w a).mp hwc with
      ⟨hwpool, hwcap, hwa⟩
    refine ⟨w, hget, hwpool, ?_, ?_⟩
    · intro _
      refine ⟨hwcap, ?_⟩
      intro u hu hucap
      have humem : (u, active_session_count st.sessions u.id) ∈
          (selectPool st pid).filterMap
            (fun u => if worker_at_cap st u then none
              else some (u, active_session_count st.sessions u.id)) :=
        (mem_candidates_iff st (selectPool st pid) u _).mpr ⟨hu, hucap, rfl⟩
      rw [hcand] at humem
      have hle2 := hallmin _ humem
      rw [hwa] at hle2
      simpa using hle2
    · intro hallcap
      have hcmem : (c.1, c.2) ∈ (selectPool st pid).filterMap
          (fun u => if worker_at_cap st u then none
            else some (u, active_session_count st.sessions u.id)) := by
        rw [hcand]
        simp
      rcases (mem_candidates_iff st (selectPool st pid) c.1 c.2).mp hcmem with
        ⟨hc1p, hc1cap, _⟩
      have := hallcap c.1 hc1p
      rw [hc1cap] at this
      cases this

/-- Workers of the claim C6 witness: worker one capped at one session,
worker two capped at three. -/
def c6w1 : Worker :=
  { id := 1, status := "active", maxSessions := some 1, createdAt := 0 }

def c6w2 : Worker :=
  { id := 2, status := "active", maxSessions := some 3, createdAt := 0 }

/-- A filler active session used to load the claim C6 witness workers. -/
def c6Sess (sid wid : Nat) : SessionRec :=
  { id := sid, userId := 1, productId := 1, workerId := wid,
    status := "ready", checklist := [], idempotencyKey := "k",
    workerRoute := none, logUrl := none, createdAt := 0, updatedAt := 0,
    expiresAt := some 18000 }

/-- State of the claim C6 witness: worker one is at its cap with one active
session, worker two has headroom with two active sessions. -/
def c6St : St :=
  { users := [(1, 100)], workers := [c6w1, c6w2], products := [demoProduct],
    productWorkers := [(1, 1), (1, 2)],
    sessions := [c6Sess 7 1, c6Sess 8 2, c6Sess 9 2], ledger := [] }

/-- Witness for claim C6: with worker one at capacity and worker two under
capacity, the selector returns a worker of the pool satisfying the cap and
minimal-load properties. -/
theorem C6_witness :
    ∃ w, select_for_product 0 c6St 1 = some w
      ∧ w ∈ selectPool c6St 1
      ∧ ((∃ u ∈ selectPool c6St 1, worker_at_cap c6St u = false) →
          worker_at_cap c6St w = false
          ∧ ∀ u ∈ selectPool c6St 1, worker_at_cap c6St u = false →
              active_session_count c6St.sessions w.id ≤
                active_session_count c6St.sessions u.id)
      ∧ ((∀ u ∈ selectPool c6St 1, worker_at_cap c6St u = true) →
          ∀ u ∈ selectPool c6St 1,
            active_session_count c6St.sessions w.id ≤
              active_session_count c6St.sessions u.id) :=
  C6_selector_respects_caps 0 c6St 1 (by decide)

/-- Shape of a successful provisioning loop: since every failover branch of
the loop raises (the selector call passing exclude always raises TypeError),
a normal return can only come from the first create_vm succeeding, and the
final state is the provisioning update of the entry state. -/
theorem purchase_loop_ok_shape (probe : Nat → Int)
    (createVm : Nat → Nat → Except PyExc (String × String))
    (seed : Nat) (now : Int) (uid : Nat) (product : Product) (sid : Nat)
    (action : Nat) (fuel attempt : Nat) (st : St) (worker : Worker)
    (attempted : List Nat) (st2 : St) (sid2 : Nat) (tr : Bool)
    (h : purchase_loop probe createVm seed now uid product sid action fuel
        attempt st worker attempted = .ok st2 (sid2, tr)) :
    sid2 = sid ∧ tr = true ∧ ∃ route logUrl,
      st2 = mark_provisioning st sid route logUrl action now := by
  cases fuel with
  | zero =>
    simp only [purchase_loop] at h
    exact absurd h (by simp)
  | succ fuel =>
    simp only [purchase_loop, select_for_product_with_exclude] at h
    repeat' split at h
    all_goals try exact RunResult.noConfusion h
    injection h with ha hb
    injection hb with hb1 hb2
    exact ⟨hb1.symm, hb2.symm, _, _, ha.symm⟩

/-- The provisioning update commutes with the idempotency lookup: it only
rewrites remote-handle, status, checklist and timestamp fields, never the
owner or the key. -/
theorem find_idempotent_mark (st : St) (sid : Nat) (route logUrl : String)
    (action : Nat) (now : Int) (uid : Nat) (key : String) :
    find_idempotent (mark_provisioning st sid route logUrl action now) uid key
      = (find_idempotent st uid key).map
          (fun s => if s.id == sid then
            { s with workerRoute := some route, logUrl := some logUrl,
                     status := "provisioning",
                     checklist := [{ key := "worker_action",
                                     label := toString action, done := true,
                                     ts := some now,
                                     metaAction := some action }],
                     updatedAt := now } else s) := by
  unfold find_idempotent mark_provisioning update_session
  simp only
  apply find?_map_pres
  intro t
  by_cases ht : (t.id == sid) = true
  · rw [if_pos ht]
  · rw [if_neg ht]

/-- The provisioning update never touches the ledger. -/
theorem ledger_mark (st : St) (sid : Nat) (route logUrl : String)
    (action : Nat) (now : Int) :
    (mark_provisioning st sid route logUrl action now).ledger = st.ledger :=
  rfl

/-- Unfolding equation of the idempotency lookup. -/
theorem find_idempotent_def (stx : St) (uid : Nat) (key : String) :
    find_idempotent stx uid key = stx.sessions.find?
      (fun s => s.userId == uid && s.idempotencyKey == key) := rfl

/-- Claim C2: a purchase that created a session makes the immediate retry
with the same user and idempotency key a pure read: the second call returns
the same session id flagged as not newly created with the state returned
untouched, and across the two calls exactly one debit referencing that
session id was written. -/
theorem C2_idempotent_purchase (probe : Nat → Int)
    (createVm : Nat → Nat → Except PyExc (String × String))
    (seed fuel : Nat) (now : Int) (st : St) (uid pid : Nat) (key : String)
    (workerAction workerId : Option Nat) (st2 : St) (sid : Nat)
    (h : purchase_and_create probe createVm seed fuel now st uid pid key
        workerAction workerId = .ok st2 (sid, true)) :
    purchase_and_create probe createVm seed fuel now st2 uid pid key
        workerAction workerId = .ok st2 (sid, false)
    ∧ st2.ledger.countP
        (fun e => e.entryType == "vps.purchase" && e.refId == some sid)
      = st.ledger.countP
        (fun e => e.entryType == "vps.purchase" && e.refId == some sid)
        + 1 := by
  simp only [purchase_and_create] at h
  by_cases hkey : (pyStrip key == "") = true
  · rw [if_pos hkey] at h
    exact RunResult.noConfusion h
  · rw [if_neg hkey] at h
    cases hfi : find_idempotent st uid (pyStrip key) with
    | some ex =>
      simp only [hfi] at h
      simp at h
    | none =>
      simp only [hfi] at h
      cases hlp : load_product st pid with
      | none =>
        simp only [hlp] at h
        exact RunResult.noConfusion h
      | some product =>
        simp only [hlp] at h
        by_cases hbal : get_balance st uid < product.priceCoins
        · rw [if_pos hbal] at h
          exact RunResult.noConfusion h
        · rw [if_neg hbal] at h
          cases hsel : select_for_product seed st pid with
          | none =>
            simp only [hsel] at h
            exact RunResult.noConfusion h
          | some worker =>
            simp only [hsel] at h
            cases hadj : adjust_balance
                { st with sessions := st.sessions ++
                    [initial_session uid product.id worker.id (pyStrip key)
                      now (nextSessionId st)] }
                uid (-product.priceCoins) "vps.purchase"
                (some (nextSessionId st))
                ("product " ++ toString product.id) with
            | error msg =>
              simp only [hadj] at h
              exact RunResult.noConfusion h
            | ok stdeb =>
              simp only [hadj] at h
              rcases purchase_loop_ok_shape _ _ _ _ _ _ _ _ _ _ _ _ _ _ _ _ h
                with ⟨hsid, -, route, logUrl, hst2⟩
              subst hst2
              subst hsid
              simp only [adjust_balance] at hadj
              split at hadj
              · exact Except.noConfusion hadj
              · injection hadj with hdeb
                have hfi2 : st.sessions.find? (fun s => s.userId == uid &&
                    s.idempotencyKey == pyStrip key) = none := hfi
                have hsessions : stdeb.sessions = st.sessions ++
                    [initial_session uid product.id worker.id (pyStrip key)
                      now (nextSessionId st)] := by
                  rw [← hdeb]
                have hledger : stdeb.ledger = st.ledger ++
                    [{ userId := uid, amount := -product.priceCoins,
                       entryType := "vps.purchase",
                       refId := some (nextSessionId st),
                       resultingBalance :=
                         get_balance st uid + -product.priceCoins,
                       meta := "product " ++ toString product.id }] := by
                  rw [← hdeb]
                  rfl
                constructor
                · simp only [purchase_and_create]
                  rw [if_neg hkey, find_idempotent_mark, find_idempotent_def,
                    hsessions, find?_append_of_none _ _ hfi2]
                  simp [initial_session]
                · rw [ledger_mark, hledger, List.countP_append]
                  simp

/-- State after the successful purchase of the claim C2 witness: the session
provisioning, the wallet debited once. -/
def c2SuccessSt : St :=
  { users := [(1, 40)], workers := [demoWorker], products := [demoProduct],
    productWorkers := [(1, 1)],
    sessions := [{ id := 1, userId := 1, productId := 1, workerId := 1,
                   status := "provisioning",
                   checklist := [{ key := "worker_action", label := "1",
                                   done := true, ts := some 0,
                                   metaAction := some 1 }],
                   idempotencyKey := "key-1", workerRoute := some "abc",
                   logUrl := some "http://w/log/abc", createdAt := 0,
                   updatedAt := 0, expiresAt := some 18000 }],
    ledger := [{ userId := 1, amount := -60, entryType := "vps.purchase",
                 refId := some 1, resultingBalance := 40,
                 meta := "product 1" }] }

/-- Witness for claim C2: after the successful purchase on the demo state,
the retry with the same key returns the same session flagged as replayed,
leaves the state untouched, and exactly one debit references the session. -/
theorem C2_witness :
    purchase_and_create (fun _ => 5)
        (fun _ _ => .ok ("abc", "http://w/log/abc")) 0 9 0 c2SuccessSt 1 1
        "key-1" none none = .ok c2SuccessSt (1, false)
    ∧ c2SuccessSt.ledger.countP
        (fun e => e.entryType == "vps.purchase" && e.refId == some 1)
      = demoSt.ledger.countP
        (fun e => e.entryType == "vps.purchase" && e.refId == some 1) + 1 :=
  C2_idempotent_purchase (fun _ => 5)
    (fun _ _ => .ok ("abc", "http://w/log/abc")) 0 9 0 demoSt 1 1 "key-1"
    none none c2SuccessSt 1 (by decide)

end VpsBroker
